import Mathlib

/-!
Shallow embedding of the onebox-deployment-on-amazon-ecs CDK application.

The repository declares AWS infrastructure through CDK constructor calls.
The embedding models each construct as a record of the configuration the
source passes to the corresponding CDK constructor, and each Python
method as a Lean function building (or updating) those records.  Object
identity, which the source relies on through Python references, is made
explicit by a fresh-id supply (a Nat counter threaded through the
constructors): two records denote the same construct instance exactly
when they carry the same uid.
-/

namespace OneBoxECS

/-- Model of Python substring containment: needle in hay. -/
def pyIn (needle hay : String) : Prop := needle.data <:+: hay.data

instance (n h : String) : Decidable (pyIn n h) := List.decidableInfix _ _

/-- Model of Python str.lower: lowercases every character. -/
def pyLower (s : String) : String := ⟨s.data.map Char.toLower⟩

/-- Model of Python stack_name.split(dash)[-1]: the last dash-separated segment. -/
def lastDashSegment (s : String) : String := (s.splitOn "-").getLastD ""

/-- Model of cdk.Duration values used by the configuration. -/
inductive Duration where
  | seconds (n : Nat)
  | minutes (n : Nat)
  deriving Repr, DecidableEq

/-- Model of the cloudwatch statistic chosen by the source, which calls
cloudwatch.Stats.trimmed_mean with two percent bounds (constants.py line 85). -/
inductive Statistic where
  | trimmedMean (lowerPercent upperPercent : Nat)
  deriving Repr, DecidableEq

/-- Embeds the AutoscalingParameters dataclass (constants.py lines 40 to 46). -/
structure AutoscalingParameters where
  deployment_stage : String
  min_capacity : Nat
  desired_capacity : Nat
  max_capacity : Nat
  target_cpu_utilization : Nat
  deriving Repr, DecidableEq

/-- Embeds the MetricAlarmParameters dataclass (constants.py lines 49 to 56). -/
structure MetricAlarmParameters where
  metric_name : String
  statistic : Statistic
  period : Duration
  threshold : Nat
  evaluation_period : Nat
  datapoints_to_alarm : Nat
  deriving Repr, DecidableEq

namespace DeploymentEnvironment

/-- constants.py line 30. -/
def SANDBOX : String := "Sandbox"

/-- constants.py line 31. -/
def PROD : String := "Prod"

end DeploymentEnvironment

namespace DeploymentStage

/-- constants.py line 36. -/
def ONEBOX : String := "Onebox"

/-- constants.py line 37. -/
def FLEET : String := "Fleet"

end DeploymentStage

/- Constants of the Service class in constants.py (referenced from the other
modules as constants.ServiceConstants). -/
namespace ServiceConstants

def APP_NAME : String := "OneBoxDeploymentOnECS"

def APP_REPOSITORY_BRANCH : String := "main"

def ECS_CLUSTER_NAME_TEMPLATE : String := "\x7bapp\x7d-\x7benv\x7d"

def ECS_SERVICE_NAME_TEMPLATE : String := "\x7bapp\x7d-\x7bstage\x7d"

def PORT : Nat := 80

def CPU : Nat := 512

def MEMORY : Nat := 2048

def ONEBOX_WEIGHT : Nat := 1

def FLEET_WEIGHT : Nat := 99

def BOOTSTRAP_CONTAINER_IMAGE : String := "nginx:1.23.3"

def LB_HEALTH_CHECK_PATH : String := "/"

def LB_HEALTH_CHECK_TIMEOUT : Duration := .seconds 10

def TARGET_RESPONSE_TIME_METRIC_ALARM_PARAMETERS : MetricAlarmParameters :=
  { metric_name := "TargetResponseTime"
    statistic := .trimmedMean 90 100
    period := .minutes 1
    threshold := 3
    evaluation_period := 4
    datapoints_to_alarm := 3 }

def ONEBOX_AUTOSCALING_PARAMETERS : AutoscalingParameters :=
  { deployment_stage := DeploymentStage.ONEBOX
    min_capacity := 3
    desired_capacity := 3
    max_capacity := 10
    target_cpu_utilization := 75 }

def FLEET_AUTOSCALING_PARAMETERS : AutoscalingParameters :=
  { deployment_stage := DeploymentStage.FLEET
    min_capacity := 10
    desired_capacity := 10
    max_capacity := 1000
    target_cpu_utilization := 75 }

end ServiceConstants

/-- Account and region of the deployment environments come from the ambient
CDK environment variables; modelled as symbolic values. -/
def CDK_DEFAULT_ACCOUNT : String := "env:CDK_DEFAULT_ACCOUNT"

def CDK_DEFAULT_REGION : String := "env:CDK_DEFAULT_REGION"

/-- Embeds cdk.Environment as used in constants.py. -/
structure Environment where
  account : String
  region : String
  deriving Repr, DecidableEq

def SANDBOX_ENVIRONMENT : Environment :=
  { account := CDK_DEFAULT_ACCOUNT, region := CDK_DEFAULT_REGION }

def DEPLOYMENTS_ENVIRONMENT : Environment :=
  { account := CDK_DEFAULT_ACCOUNT, region := CDK_DEFAULT_REGION }

def PRODUCTION_ENVIRONMENT : Environment :=
  { account := CDK_DEFAULT_ACCOUNT, region := CDK_DEFAULT_REGION }

/- ----------------------------------------------------------------
Reverse proxy (src/service/reverse_proxy.py)
---------------------------------------------------------------- -/

inductive ApplicationProtocol where
  | HTTP
  | HTTPS
  deriving Repr, DecidableEq

/-- Model of an elbv2.ApplicationTargetGroup with the configuration the
source sets; uid identifies the construct instance. -/
structure ApplicationTargetGroup where
  uid : Nat
  constructId : String
  protocol : ApplicationProtocol
  healthCheckPath : Option String
  healthCheckTimeout : Option Duration
  deriving Repr, DecidableEq

/-- Embeds elbv2.WeightedTargetGroup (a target group with an integer weight). -/
structure WeightedTargetGroup where
  target_group : ApplicationTargetGroup
  weight : Nat
  deriving Repr, DecidableEq

/-- Model of the listener actions the source builds: only the weighted
forward action is used. -/
inductive ListenerAction where
  | weightedForward (target_groups : List WeightedTargetGroup)
  deriving Repr, DecidableEq

structure Listener where
  constructId : String
  protocol : ApplicationProtocol
  defaultAction : ListenerAction
  deriving Repr, DecidableEq

structure ApplicationLoadBalancer where
  uid : Nat
  internetFacing : Bool
  listeners : List Listener
  deriving Repr, DecidableEq

/-- Symbolic deploy-time token for the public DNS name of a load balancer. -/
def ApplicationLoadBalancer.load_balancer_dns_name (alb : ApplicationLoadBalancer) : String :=
  "token:AlbDnsName:" ++ toString alb.uid

namespace ReverseProxy

/-- Embeds ReverseProxy._create_target_group (reverse_proxy.py lines 31 to 50):
creates an HTTP target group and then configures its health check with the
given path and timeout. -/
def createTargetGroup (uid : Nat) (deployment_stage : String)
    (lb_health_check_path : String) (lb_health_check_timeout : Duration) :
    ApplicationTargetGroup :=
  let target_group : ApplicationTargetGroup :=
    { uid := uid
      constructId := deployment_stage ++ "TargetGroup"
      protocol := .HTTP
      healthCheckPath := none
      healthCheckTimeout := none }
  { target_group with
      healthCheckPath := some lb_health_check_path
      healthCheckTimeout := some lb_health_check_timeout }

/-- Embeds ReverseProxy._create_weighted_forward_action (reverse_proxy.py
lines 68 to 86). -/
def createWeightedForwardAction
    (onebox_target_group : ApplicationTargetGroup) (onebox_weight : Nat)
    (fleet_target_group : ApplicationTargetGroup) (fleet_weight : Nat) :
    ListenerAction :=
  let onebox_weighted_target_group : WeightedTargetGroup :=
    { target_group := onebox_target_group, weight := onebox_weight }
  let fleet_weighted_target_group : WeightedTargetGroup :=
    { target_group := fleet_target_group, weight := fleet_weight }
  .weightedForward [onebox_weighted_target_group, fleet_weighted_target_group]

/-- Embeds ReverseProxy._create_alb (reverse_proxy.py lines 52 to 66). -/
def createAlb (uid : Nat) (onebox_target_group fleet_target_group : ApplicationTargetGroup) :
    ApplicationLoadBalancer :=
  let weighted_forward_action :=
    createWeightedForwardAction
      onebox_target_group ServiceConstants.ONEBOX_WEIGHT
      fleet_target_group ServiceConstants.FLEET_WEIGHT
  { uid := uid
    internetFacing := true
    listeners := [{ constructId := "Listener"
                    protocol := .HTTP
                    defaultAction := weighted_forward_action }] }

end ReverseProxy

structure ReverseProxy where
  onebox_target_group : ApplicationTargetGroup
  fleet_target_group : ApplicationTargetGroup
  alb : ApplicationLoadBalancer
  deriving Repr, DecidableEq

/-- Embeds ReverseProxy.__init__ (reverse_proxy.py lines 14 to 29); uid0 is
the fresh-id supply, the second component returns the rest of it. -/
def ReverseProxy.init (uid0 : Nat) : ReverseProxy × Nat :=
  let onebox_target_group :=
    ReverseProxy.createTargetGroup uid0 DeploymentStage.ONEBOX
      ServiceConstants.LB_HEALTH_CHECK_PATH ServiceConstants.LB_HEALTH_CHECK_TIMEOUT
  let fleet_target_group :=
    ReverseProxy.createTargetGroup (uid0 + 1) DeploymentStage.FLEET
      ServiceConstants.LB_HEALTH_CHECK_PATH ServiceConstants.LB_HEALTH_CHECK_TIMEOUT
  let alb := ReverseProxy.createAlb (uid0 + 2) onebox_target_group fleet_target_group
  ({ onebox_target_group := onebox_target_group
     fleet_target_group := fleet_target_group
     alb := alb }, uid0 + 3)

/- ----------------------------------------------------------------
Compute (src/service/compute.py)
---------------------------------------------------------------- -/

/-- compute.py line 19. -/
def RUNTIME_DIRECTORY_RELATIVE_PATH : String := "web_api"

/-- Model of an ecs.ContainerImage: either pulled from a registry or built
from a local directory asset. -/
inductive ContainerImage where
  | fromRegistry (imageName : String)
  | fromAsset (directory : String)
  deriving Repr, DecidableEq

/-- Minimal model of the iam execution role built by
Compute._create_task_definition_execution_role. -/
structure Role where
  assumedByService : String
  managedPolicies : List String
  withoutPolicyUpdates : Bool
  deriving Repr, DecidableEq

structure PortMapping where
  container_port : Nat
  deriving Repr, DecidableEq

/-- Model of an ecs.ContainerDefinition with the fields the source sets;
logStreamName holds the aws_logs stream name chosen by the source. -/
structure ContainerDefinition where
  constructId : String
  container_name : String
  image : ContainerImage
  cpu : Nat
  memory_limit_mib : Nat
  logStreamName : String
  portMappings : List PortMapping
  deriving Repr, DecidableEq

/-- Model of an ecs.FargateTaskDefinition; uid identifies the instance. -/
structure TaskDefinition where
  uid : Nat
  memory_limit_mib : Nat
  cpu : Nat
  execution_role : Role
  containers : List ContainerDefinition
  deriving Repr, DecidableEq

/-- Embeds the EcsServiceParameters dataclass (compute.py lines 22 to 26). -/
structure EcsServiceParameters where
  name : String
  task_definition : TaskDefinition
  autoscaling_parameters : AutoscalingParameters
  deriving Repr, DecidableEq

/-- Embeds the ContainerParameters dataclass (compute.py lines 29 to 35). -/
structure ContainerParameters where
  image : ContainerImage
  name : String
  cpu : Nat
  memory : Nat
  port : Nat
  deriving Repr, DecidableEq

structure CpuUtilizationScaling where
  constructId : String
  target_utilization_percent : Nat
  deriving Repr, DecidableEq

/-- Model of the scalable task count returned by auto_scale_task_count. -/
structure ScalableTaskCount where
  min_capacity : Nat
  max_capacity : Nat
  cpuScaling : Option CpuUtilizationScaling
  deriving Repr, DecidableEq

inductive AlarmBehavior where
  | ROLLBACK_ON_ALARM
  | FAIL_ON_ALARM
  deriving Repr, DecidableEq

/-- Model of an ecs.FargateService with the configuration the source sets.
attachedTargetGroupUid records the target group the service was added to;
deploymentAlarms records the alarm names registered through
enable_deployment_alarms together with the chosen behavior. -/
structure FargateService where
  uid : Nat
  constructId : String
  service_name : String
  task_definition : TaskDefinition
  clusterName : String
  desired_count : Nat
  autoscaling : Option ScalableTaskCount
  attachedTargetGroupUid : Option Nat
  allowedFromAlb : Option (Nat × Nat)
  deploymentAlarms : List (String × AlarmBehavior)
  deriving Repr, DecidableEq

structure EcsCluster where
  uid : Nat
  cluster_name : String
  enableFargateCapacityProviders : Bool
  containerInsights : Bool
  deriving Repr, DecidableEq

/-- Model of an ecr_assets.DockerImageAsset; uid identifies the instance. -/
structure DockerImageAsset where
  uid : Nat
  directory : String
  deriving Repr, DecidableEq

/-- Symbolic deploy-time token for the resolved image URI of the asset. -/
def DockerImageAsset.image_uri (a : DockerImageAsset) : String :=
  "token:DockerImageAssetUri:" ++ toString a.uid

namespace Compute

/-- Embeds Compute._get_runtime_directory_path (compute.py lines 235 to 241):
resolves the web_api directory next to compute.py; modelled as the
repository-relative path of that directory. -/
def getRuntimeDirectoryPath : String :=
  "service/" ++ RUNTIME_DIRECTORY_RELATIVE_PATH

/-- Embeds Compute._create_runtime_container_image (compute.py lines 127 to 130). -/
def createRuntimeContainerImage : ContainerImage :=
  .fromAsset getRuntimeDirectoryPath

/-- Embeds Compute._create_bootstrap_container_image (compute.py lines 249 to 254). -/
def createBootstrapContainerImage : ContainerImage :=
  .fromRegistry ServiceConstants.BOOTSTRAP_CONTAINER_IMAGE

/-- Embeds Compute._get_task_container_image (compute.py lines 119 to 125):
Python tests constants.DeploymentEnvironment.PROD.lower() in
cdk.Stack.of(self).stack_name.lower(). -/
def getTaskContainerImage (stack_name : String) : ContainerImage :=
  if pyIn (pyLower DeploymentEnvironment.PROD) (pyLower stack_name) then
    createBootstrapContainerImage
  else
    createRuntimeContainerImage

/-- Embeds Compute._create_runtime_container_image_asset (compute.py lines
132 to 137). -/
def createRuntimeContainerImageAsset (uid : Nat) : DockerImageAsset :=
  { uid := uid, directory := getRuntimeDirectoryPath }

/-- Embeds Compute._generate_ecs_cluster_name (compute.py lines 101 to 106):
applies ECS_CLUSTER_NAME_TEMPLATE to the app name and the last
dash-separated segment of the enclosing stack name. -/
def generateEcsClusterName (stack_name : String) : String :=
  ServiceConstants.APP_NAME ++ "-" ++ lastDashSegment stack_name

/-- Embeds Compute._generate_ecs_service_name (compute.py lines 243 to 247):
applies ECS_SERVICE_NAME_TEMPLATE to the app name and the stage. -/
def generateEcsServiceName (stage : String) : String :=
  ServiceConstants.APP_NAME ++ "-" ++ stage

/-- Embeds Compute._create_ecs_cluster (compute.py lines 108 to 117). -/
def createEcsCluster (uid : Nat) (cluster_name : String) : EcsCluster :=
  { uid := uid
    cluster_name := cluster_name
    enableFargateCapacityProviders := true
    containerInsights := true }

/-- Embeds Compute._create_task_definition_execution_role (compute.py lines
158 to 171). -/
def createTaskDefinitionExecutionRole : Role :=
  { assumedByService := "ecs-tasks.amazonaws.com"
    managedPolicies := ["service-role/AmazonECSTaskExecutionRolePolicy"]
    withoutPolicyUpdates := true }

/-- Embeds Compute._add_container_to_task_definition (compute.py lines 256
to 273): adds one container with an HTTP port mapping to the task
definition. -/
def addContainerToTaskDefinition (task_definition : TaskDefinition)
    (container_parameters : ContainerParameters) : TaskDefinition :=
  let container : ContainerDefinition :=
    { constructId := "Container" ++ container_parameters.name
      container_name := container_parameters.name
      image := container_parameters.image
      cpu := container_parameters.cpu
      memory_limit_mib := container_parameters.memory
      logStreamName := container_parameters.name
      portMappings := [{ container_port := container_parameters.port }] }
  { task_definition with containers := task_definition.containers ++ [container] }

/-- Embeds Compute._create_task_definition (compute.py lines 139 to 156). -/
def createTaskDefinition (uid : Nat) (container_parameters : ContainerParameters) :
    TaskDefinition :=
  let execution_role := createTaskDefinitionExecutionRole
  let task_definition : TaskDefinition :=
    { uid := uid
      memory_limit_mib := container_parameters.memory
      cpu := container_parameters.cpu
      execution_role := execution_role
      containers := [] }
  addContainerToTaskDefinition task_definition container_parameters

/-- Embeds Compute._configure_service_autoscaling (compute.py lines 275 to
287): scales task count between the min and max capacity, targeting the
given cpu utilization. -/
def configureServiceAutoscaling (service : FargateService)
    (autoscaling_parameters : AutoscalingParameters) : FargateService :=
  let autoscaling : ScalableTaskCount :=
    { min_capacity := autoscaling_parameters.min_capacity
      max_capacity := autoscaling_parameters.max_capacity
      cpuScaling := some { constructId := "CpuScaling"
                           target_utilization_percent :=
                             autoscaling_parameters.target_cpu_utilization } }
  { service with autoscaling := some autoscaling }

/-- Embeds Compute._create_autoscaled_fargate_service (compute.py lines 204
to 223). -/
def createAutoscaledFargateService (uid : Nat) (cluster : EcsCluster)
    (ecs_service_parameters : EcsServiceParameters) : FargateService :=
  let fargate_service : FargateService :=
    { uid := uid
      constructId := "EcsService-" ++ ecs_service_parameters.name
      service_name := ecs_service_parameters.name
      task_definition := ecs_service_parameters.task_definition
      clusterName := cluster.cluster_name
      desired_count := ecs_service_parameters.autoscaling_parameters.desired_capacity
      autoscaling := none
      attachedTargetGroupUid := none
      allowedFromAlb := none
      deploymentAlarms := [] }
  configureServiceAutoscaling fargate_service
    ecs_service_parameters.autoscaling_parameters

/-- Embeds Compute._create_and_configure_ecs_service (compute.py lines 185
to 202): creates the autoscaled service, adds it as a target of the given
target group, and allows traffic from the load balancer on the service
port. -/
def createAndConfigureEcsService (uid : Nat) (ecs_cluster : EcsCluster)
    (alb : ApplicationLoadBalancer) (target_group : ApplicationTargetGroup)
    (ecs_service_parameters : EcsServiceParameters) : FargateService :=
  let ecs_service := createAutoscaledFargateService uid ecs_cluster ecs_service_parameters
  let ecs_service := { ecs_service with attachedTargetGroupUid := some target_group.uid }
  { ecs_service with allowedFromAlb := some (alb.uid, ServiceConstants.PORT) }

end Compute

structure Compute where
  ecs_cluster_name : String
  ecsCluster : EcsCluster
  onebox_service_name : String
  fleet_service_name : String
  onebox_service : FargateService
  fleet_service : FargateService
  runtime_container_image_asset : DockerImageAsset
  deriving Repr, DecidableEq

/-- Embeds Compute.__init__ (compute.py lines 39 to 99); stack_name is the
name of the enclosing cdk.Stack, uid0 the fresh-id supply. -/
def Compute.init (stack_name : String) (reverse_proxy : ReverseProxy) (uid0 : Nat) :
    Compute × Nat :=
  let ecs_cluster_name := Compute.generateEcsClusterName stack_name
  let ecs_cluster := Compute.createEcsCluster uid0 ecs_cluster_name
  let task_container_image := Compute.getTaskContainerImage stack_name
  let container_parameters : ContainerParameters :=
    { image := task_container_image
      name := ServiceConstants.APP_NAME
      cpu := ServiceConstants.CPU
      memory := ServiceConstants.MEMORY
      port := ServiceConstants.PORT }
  let task_definition := Compute.createTaskDefinition (uid0 + 1) container_parameters
  let onebox_service_name := Compute.generateEcsServiceName DeploymentStage.ONEBOX
  let onebox_ecs_service_parameters : EcsServiceParameters :=
    { name := onebox_service_name
      task_definition := task_definition
      autoscaling_parameters := ServiceConstants.ONEBOX_AUTOSCALING_PARAMETERS }
  let onebox_service :=
    Compute.createAndConfigureEcsService (uid0 + 2) ecs_cluster reverse_proxy.alb
      reverse_proxy.onebox_target_group onebox_ecs_service_parameters
  let fleet_service_name := Compute.generateEcsServiceName DeploymentStage.FLEET
  let fleet_ecs_service_parameters : EcsServiceParameters :=
    { name := fleet_service_name
      task_definition := task_definition
      autoscaling_parameters := ServiceConstants.FLEET_AUTOSCALING_PARAMETERS }
  let fleet_service :=
    Compute.createAndConfigureEcsService (uid0 + 3) ecs_cluster reverse_proxy.alb
      reverse_proxy.fleet_target_group fleet_ecs_service_parameters
  let runtime_container_image_asset := Compute.createRuntimeContainerImageAsset (uid0 + 4)
  ({ ecs_cluster_name := ecs_cluster_name
     ecsCluster := ecs_cluster
     onebox_service_name := onebox_service_name
     fleet_service_name := fleet_service_name
     onebox_service := onebox_service
     fleet_service := fleet_service
     runtime_container_image_asset := runtime_container_image_asset }, uid0 + 5)

/- ----------------------------------------------------------------
Compute deployment monitoring (src/service/compute_deployment_monitoring.py)
---------------------------------------------------------------- -/

/-- Model of a cloudwatch metric derived from a target group through
target_group.metric: it is bound to the target group it came from. -/
structure Metric where
  targetGroupUid : Nat
  metric_name : String
  statistic : Statistic
  period : Duration
  deriving Repr, DecidableEq

/-- Model of the cloudwatch alarm created through metric.create_alarm. -/
structure Alarm where
  constructId : String
  alarm_name : String
  metric : Metric
  threshold : Nat
  evaluation_periods : Nat
  datapoints_to_alarm : Nat
  deriving Repr, DecidableEq

/-- Embeds target_group.metric as called in
compute_deployment_monitoring.py lines 25 to 29. -/
def ApplicationTargetGroup.metric (target_group : ApplicationTargetGroup)
    (metric_name : String) (statistic : Statistic) (period : Duration) : Metric :=
  { targetGroupUid := target_group.uid
    metric_name := metric_name
    statistic := statistic
    period := period }

/-- Embeds metric.create_alarm as called in
compute_deployment_monitoring.py lines 31 to 37; the physical alarm name is
a deploy-time token, modelled symbolically from the metric. -/
def Metric.create_alarm (m : Metric) (constructId : String)
    (threshold : Nat) (evaluation_periods : Nat) (datapoints_to_alarm : Nat) : Alarm :=
  { constructId := constructId
    alarm_name := "token:AlarmName:" ++ toString m.targetGroupUid ++ ":" ++ m.metric_name
    metric := m
    threshold := threshold
    evaluation_periods := evaluation_periods
    datapoints_to_alarm := datapoints_to_alarm }

/-- Embeds service.enable_deployment_alarms as called in
compute_deployment_monitoring.py lines 39 to 42: registers the alarm names
on the service with the given behavior. -/
def FargateService.enable_deployment_alarms (service : FargateService)
    (alarm_names : List String) (behavior : AlarmBehavior) : FargateService :=
  { service with
      deploymentAlarms :=
        service.deploymentAlarms ++ alarm_names.map (fun n => (n, behavior)) }

/-- Embeds ComputeDeploymentMonitoring.__init__
(compute_deployment_monitoring.py lines 11 to 42); returns the created
alarm and the target service updated by enable_deployment_alarms. -/
def ComputeDeploymentMonitoring.init (target_group : ApplicationTargetGroup)
    (target_service : FargateService) : Alarm × FargateService :=
  let target_response_time_alarm_parameters :=
    ServiceConstants.TARGET_RESPONSE_TIME_METRIC_ALARM_PARAMETERS
  let target_response_time_metric :=
    target_group.metric
      target_response_time_alarm_parameters.metric_name
      target_response_time_alarm_parameters.statistic
      target_response_time_alarm_parameters.period
  let target_response_time_alarm :=
    target_response_time_metric.create_alarm
      (target_response_time_alarm_parameters.metric_name ++ "-Alarm")
      target_response_time_alarm_parameters.threshold
      target_response_time_alarm_parameters.evaluation_period
      target_response_time_alarm_parameters.datapoints_to_alarm
  let updated_service :=
    target_service.enable_deployment_alarms
      [target_response_time_alarm.alarm_name] AlarmBehavior.ROLLBACK_ON_ALARM
  (target_response_time_alarm, updated_service)

/- ----------------------------------------------------------------
Service stack (src/service/service_stack.py)
---------------------------------------------------------------- -/

/-- Embeds cdk.CfnOutput: a named stack output with a value. -/
structure CfnOutput where
  outputId : String
  value : String
  deriving Repr, DecidableEq

structure ServiceStack where
  stack_name : String
  account : String
  region : String
  vpcUid : Nat
  reverse_proxy : ReverseProxy
  compute : Compute
  onebox_monitoring_alarm : Alarm
  monitored_onebox_service : FargateService
  fleet_monitoring_alarm : Alarm
  monitored_fleet_service : FargateService
  web_api_endpoint : CfnOutput
  runtime_container_image_url : CfnOutput
  ecs_cluster_name : String
  onebox_service_name : String
  fleet_service_name : String
  deriving Repr, DecidableEq

/-- Embeds ServiceStack.__init__ together with ServiceStack._create_outputs
(service_stack.py lines 18 to 66); the stack name and environment come
from the instantiation site, uid0 is the fresh-id supply. -/
def ServiceStack.init (stack_name account region : String) (uid0 : Nat) :
    ServiceStack × Nat :=
  let vpcUid := uid0
  let (reverse_proxy, uid1) := ReverseProxy.init (uid0 + 1)
  let (compute, uid2) := Compute.init stack_name reverse_proxy uid1
  let (onebox_monitoring_alarm, monitored_onebox_service) :=
    ComputeDeploymentMonitoring.init
      reverse_proxy.onebox_target_group compute.onebox_service
  let (fleet_monitoring_alarm, monitored_fleet_service) :=
    ComputeDeploymentMonitoring.init
      reverse_proxy.fleet_target_group compute.fleet_service
  let web_api_endpoint : CfnOutput :=
    { outputId := "WebAPIEndpoint"
      value := reverse_proxy.alb.load_balancer_dns_name }
  let runtime_container_image_url : CfnOutput :=
    { outputId := "RuntimeContainerImageUrl"
      value := compute.runtime_container_image_asset.image_uri }
  ({ stack_name := stack_name
     account := account
     region := region
     vpcUid := vpcUid
     reverse_proxy := reverse_proxy
     compute := compute
     onebox_monitoring_alarm := onebox_monitoring_alarm
     monitored_onebox_service := monitored_onebox_service
     fleet_monitoring_alarm := fleet_monitoring_alarm
     monitored_fleet_service := monitored_fleet_service
     web_api_endpoint := web_api_endpoint
     runtime_container_image_url := runtime_container_image_url
     ecs_cluster_name := compute.ecs_cluster_name
     onebox_service_name := compute.onebox_service_name
     fleet_service_name := compute.fleet_service_name }, uid2)

/- ----------------------------------------------------------------
Toolchain (src/toolchain/ecs_deploy_step.py, src/toolchain/toolchain_stack.py)
---------------------------------------------------------------- -/

/-- Model of a cdk.pipelines.FileSet: an artifact identified by the step
that produces it. -/
structure FileSet where
  producerId : String
  deriving Repr, DecidableEq

/-- Model of a cdk.pipelines.ShellStep with the configuration the source
sets. -/
structure ShellStep where
  stepId : String
  commands : List String
  env : List (String × String)
  env_from_cfn_outputs : List (String × CfnOutput)
  primary_output_directory : Option String
  deriving Repr, DecidableEq

/-- CDK semantics of ShellStep.primary_output: a ShellStep has a primary
output file set, produced by itself, exactly when a primary output
directory was configured. -/
def ShellStep.primary_output (s : ShellStep) : Option FileSet :=
  if s.primary_output_directory.isSome then some { producerId := s.stepId } else none

/-- Model of the ecs.IBaseService imported by
ToolchainStack._import_ecs_service: an external reference identified by its
service ARN. -/
structure EcsServiceImport where
  constructId : String
  service_arn : String
  deriving Repr, DecidableEq

/-- Embeds the EcsDeployStep class (ecs_deploy_step.py lines 12 to 21):
stepId, input file set, target service, and the list of upstream step
dependencies accumulated through add_step_dependency. -/
structure EcsDeployStep where
  stepId : String
  input : FileSet
  ecs_service : EcsServiceImport
  dependencies : List String
  deriving Repr, DecidableEq

/-- Embeds EcsDeployStep.__init__ (ecs_deploy_step.py lines 13 to 21): the
constructor itself adds a step dependency on the producer of its input
file set. -/
def EcsDeployStep.init (id_ : String) (input_ : FileSet)
    (ecs_service : EcsServiceImport) : EcsDeployStep :=
  { stepId := id_
    input := input_
    ecs_service := ecs_service
    dependencies := [input_.producerId] }

/-- Embeds step.add_step_dependency: records one more upstream step. -/
def EcsDeployStep.add_step_dependency (s : EcsDeployStep) (dependencyId : String) :
    EcsDeployStep :=
  { s with dependencies := s.dependencies ++ [dependencyId] }

namespace ToolchainStack

/-- Embeds cdk.Arn.format with ArnFormat.SLASH_RESOURCE_NAME as called in
toolchain_stack.py lines 155 to 165. -/
def arnFormatSlashResourceName (partition service region account resource
    resource_name : String) : String :=
  "arn:" ++ partition ++ ":" ++ service ++ ":" ++ region ++ ":" ++ account
    ++ ":" ++ resource ++ "/" ++ resource_name

/-- Embeds ToolchainStack._import_ecs_service (toolchain_stack.py lines 152
to 174). -/
def importEcsService (region account cluster_name service_name : String) :
    EcsServiceImport :=
  let service_arn :=
    arnFormatSlashResourceName "aws" "ecs" region account "service"
      (cluster_name ++ "/" ++ service_name)
  { constructId := service_name, service_arn := service_arn }

/-- Embeds ToolchainStack._create_ecs_deployment_step (toolchain_stack.py
lines 128 to 150). -/
def createEcsDeploymentStep (image_definitions_artifact : FileSet)
    (cluster_name service_name deployment_stage account region : String) :
    EcsDeployStep :=
  let ecs_service := importEcsService region account cluster_name service_name
  EcsDeployStep.init ("EcsDeploy" ++ deployment_stage)
    image_definitions_artifact ecs_service

/-- toolchain_stack.py line 182. -/
def imageDefinitionsFileName : String := "imagedefinitions.json"

/-- toolchain_stack.py line 183. -/
def primaryOutputDirectoryName : String := "ecs_deployment"

/-- toolchain_stack.py line 184. -/
def createOutputDirectoryCommand : String := "mkdir " ++ primaryOutputDirectoryName

/-- Rendering of the jq shell command built in toolchain_stack.py lines 185
to 190 (the f-string quoting of the jq program is elided). -/
def createImageDefinitionsCommand : String :=
  "jq -n --arg name $IMAGE_NAME --arg uri $IMAGE_URI "
    ++ "[\x7bname: $name, imageUri: $uri\x7d] > "
    ++ primaryOutputDirectoryName ++ "/" ++ imageDefinitionsFileName

/-- Entry of the generated image-definitions document. -/
structure ImageDefinitionEntry where
  name : String
  imageUri : String
  deriving Repr, DecidableEq

/-- Semantics of the jq invocation of createImageDefinitionsCommand: with
name bound to the IMAGE_NAME variable and uri bound to the IMAGE_URI
variable, it emits a one-element array holding the name and the image URI. -/
def imageDefinitionsDocument (image_name image_uri : String) :
    List ImageDefinitionEntry :=
  [{ name := image_name, imageUri := image_uri }]

/-- Relative path the jq command writes the document to. -/
def imageDefinitionsRelativePath : String :=
  primaryOutputDirectoryName ++ "/" ++ imageDefinitionsFileName

/-- Embeds ToolchainStack._create_image_definition_generation_step
(toolchain_stack.py lines 176 to 205). -/
def createImageDefinitionGenerationStep (service_stack : ServiceStack) : ShellStep :=
  { stepId := "GenerateImageDefinitionJson"
    commands := [createOutputDirectoryCommand, createImageDefinitionsCommand]
    env := [("IMAGE_NAME", ServiceConstants.APP_NAME)]
    env_from_cfn_outputs := [("IMAGE_URI", service_stack.runtime_container_image_url)]
    primary_output_directory := some primaryOutputDirectoryName }

/-- Result of wiring the production stage: the stack, the three post steps,
and the order in which they were added to the stage deployment. -/
structure ProdStageDeployment where
  prod_service_stack : ServiceStack
  image_definitions_generation_step : ShellStep
  onebox_deployment_step : EcsDeployStep
  fleet_deployment_step : EcsDeployStep
  post_step_ids : List String
  deriving Repr, DecidableEq

/-- Embeds the part of ToolchainStack._add_prod_stage_to_pipeline after the
generation step is built (toolchain_stack.py lines 91 to 125): the check
that its primary output exists, the construction of the two deployment
steps, and the explicit dependency edges.  Raising ValueError is modelled
as Except.error. -/
def wireProdDeploymentSteps (prod_service_stack : ServiceStack)
    (image_definitions_generation_step : ShellStep) :
    Except String ProdStageDeployment :=
  match image_definitions_generation_step.primary_output with
  | none =>
      .error "image_definitions_generation_step.primary_output should never be None"
  | some primaryOut =>
      let cluster_name := prod_service_stack.compute.ecs_cluster_name
      let onebox_service_name := prod_service_stack.compute.onebox_service_name
      let fleet_service_name := prod_service_stack.compute.fleet_service_name
      let onebox_deployment_step :=
        createEcsDeploymentStep primaryOut cluster_name onebox_service_name
          DeploymentStage.ONEBOX prod_service_stack.account prod_service_stack.region
      let fleet_deployment_step :=
        createEcsDeploymentStep primaryOut cluster_name fleet_service_name
          DeploymentStage.FLEET prod_service_stack.account prod_service_stack.region
      let onebox_deployment_step :=
        onebox_deployment_step.add_step_dependency
          image_definitions_generation_step.stepId
      let fleet_deployment_step :=
        fleet_deployment_step.add_step_dependency onebox_deployment_step.stepId
      .ok { prod_service_stack := prod_service_stack
            image_definitions_generation_step := image_definitions_generation_step
            onebox_deployment_step := onebox_deployment_step
            fleet_deployment_step := fleet_deployment_step
            post_step_ids := [image_definitions_generation_step.stepId,
                              onebox_deployment_step.stepId,
                              fleet_deployment_step.stepId] }

/-- Name of the production service stack (toolchain_stack.py lines 78 to 82). -/
def prodServiceStackName : String := ServiceConstants.APP_NAME ++ "-Service-Prod"

/-- Embeds ToolchainStack._add_prod_stage_to_pipeline (toolchain_stack.py
lines 71 to 125): builds the production ServiceStack inside the Prod
stage, the image-definition generation step, and wires the deployment
steps. -/
def addProdStageToPipeline (uid0 : Nat) : Except String ProdStageDeployment :=
  let (prod_service_stack, _) :=
    ServiceStack.init prodServiceStackName
      PRODUCTION_ENVIRONMENT.account PRODUCTION_ENVIRONMENT.region uid0
  let image_definitions_generation_step :=
    createImageDefinitionGenerationStep prod_service_stack
  wireProdDeploymentSteps prod_service_stack image_definitions_generation_step

end ToolchainStack

/- ----------------------------------------------------------------
Theorems for the claims
---------------------------------------------------------------- -/

/-- C1: the load balancer listener built by ReverseProxy has a default
action that is a weighted forward across exactly the two backend pools,
with fixed integer weight 1 for the onebox target group and 99 for the
fleet target group, in every instantiation of the proxy (every fresh-id
supply); the two pools are distinct instances. -/
theorem C1_weighted_forward_action (uid0 : Nat) :
    let rp : ReverseProxy := (ReverseProxy.init uid0).1
    rp.alb.listeners.map Listener.defaultAction =
      [ListenerAction.weightedForward
        [{ target_group := rp.onebox_target_group
           weight := ServiceConstants.ONEBOX_WEIGHT },
         { target_group := rp.fleet_target_group
           weight := ServiceConstants.FLEET_WEIGHT }]]
    ∧ ServiceConstants.ONEBOX_WEIGHT = 1
    ∧ ServiceConstants.FLEET_WEIGHT = 99
    ∧ rp.onebox_target_group.uid ≠ rp.fleet_target_group.uid := by
  refine ⟨rfl, rfl, rfl, ?_⟩
  show uid0 ≠ uid0 + 1
  omega

/-- C1 witness at a concrete fresh-id supply. -/
theorem C1_weighted_forward_action_witness :
    let rp : ReverseProxy := (ReverseProxy.init 0).1
    rp.alb.listeners.map Listener.defaultAction =
      [ListenerAction.weightedForward
        [{ target_group := rp.onebox_target_group
           weight := ServiceConstants.ONEBOX_WEIGHT },
         { target_group := rp.fleet_target_group
           weight := ServiceConstants.FLEET_WEIGHT }]]
    ∧ ServiceConstants.ONEBOX_WEIGHT = 1
    ∧ ServiceConstants.FLEET_WEIGHT = 99
    ∧ rp.onebox_target_group.uid ≠ rp.fleet_target_group.uid :=
  C1_weighted_forward_action 0

/-- C2: in the pipeline wiring built by
ToolchainStack._add_prod_stage_to_pipeline, the fleet deployment step has
the onebox deployment step among its upstream dependencies and the onebox
deployment step has the image-definition generation step among its
upstream dependencies. -/
theorem C2_pipeline_step_ordering (uid0 : Nat) :
    ∃ ps : ToolchainStack.ProdStageDeployment,
      ToolchainStack.addProdStageToPipeline uid0 = Except.ok ps
      ∧ ps.onebox_deployment_step.stepId ∈ ps.fleet_deployment_step.dependencies
      ∧ ps.image_definitions_generation_step.stepId
          ∈ ps.onebox_deployment_step.dependencies := by
  refine ⟨_, rfl, ?_, ?_⟩
  · show "EcsDeployOnebox" ∈ ["GenerateImageDefinitionJson", "EcsDeployOnebox"]
    simp
  · show "GenerateImageDefinitionJson"
        ∈ ["GenerateImageDefinitionJson", "GenerateImageDefinitionJson"]
    simp

/-- C2 witness at a concrete fresh-id supply. -/
theorem C2_pipeline_step_ordering_witness :
    ∃ ps : ToolchainStack.ProdStageDeployment,
      ToolchainStack.addProdStageToPipeline 0 = Except.ok ps
      ∧ ps.onebox_deployment_step.stepId ∈ ps.fleet_deployment_step.dependencies
      ∧ ps.image_definitions_generation_step.stepId
          ∈ ps.onebox_deployment_step.dependencies :=
  C2_pipeline_step_ordering 0

/-- C3: Compute._get_task_container_image returns the bootstrap registry
image exactly when the stack name contains the substring Prod compared
case-insensitively, and otherwise the image built from the local web_api
build context; the condition is substring containment, so every stack
name with a -Prod suffix selects the bootstrap image. -/
theorem C3_image_selection (stack_name : String) :
    (Compute.getTaskContainerImage stack_name
        = ContainerImage.fromRegistry ServiceConstants.BOOTSTRAP_CONTAINER_IMAGE
      ↔ pyIn (pyLower DeploymentEnvironment.PROD) (pyLower stack_name))
    ∧ (¬ pyIn (pyLower DeploymentEnvironment.PROD) (pyLower stack_name)
        → Compute.getTaskContainerImage stack_name
            = ContainerImage.fromAsset Compute.getRuntimeDirectoryPath)
    ∧ (∀ p : String, pyIn (pyLower DeploymentEnvironment.PROD) (pyLower (p ++ "-Prod"))) := by
  refine ⟨?_, ?_, ?_⟩
  · by_cases h : pyIn (pyLower DeploymentEnvironment.PROD) (pyLower stack_name) <;>
      simp [Compute.getTaskContainerImage, h, Compute.createBootstrapContainerImage,
        Compute.createRuntimeContainerImage]
  · intro h
    simp [Compute.getTaskContainerImage, h, Compute.createRuntimeContainerImage]
  · intro p
    show ("Prod".data.map Char.toLower) <:+: ((p ++ "-Prod").data.map Char.toLower)
    rw [String.data_append, List.map_append]
    have h1 : "Prod".data.map Char.toLower = ['p', 'r', 'o', 'd'] := by decide
    have h2 : "-Prod".data.map Char.toLower = ['-', 'p', 'r', 'o', 'd'] := by decide
    rw [h1, h2]
    exact ⟨List.map Char.toLower p.data ++ ['-'], [], by simp⟩

/-- C3 witness: the sandbox stack name selects the local build context, the
production stack name selects the bootstrap image. -/
theorem C3_image_selection_witness :
    Compute.getTaskContainerImage "OneBoxDeploymentOnECS-Service-Sandbox"
        = ContainerImage.fromAsset Compute.getRuntimeDirectoryPath
    ∧ Compute.getTaskContainerImage "OneBoxDeploymentOnECS-Service-Prod"
        = ContainerImage.fromRegistry ServiceConstants.BOOTSTRAP_CONTAINER_IMAGE :=
  ⟨(C3_image_selection "OneBoxDeploymentOnECS-Service-Sandbox").2.1 (by decide),
   (C3_image_selection "OneBoxDeploymentOnECS-Service-Prod").1.mpr (by decide)⟩

/-- C4: in every instantiation of Compute (any enclosing stack name, any
reverse proxy, any fresh-id supply) the onebox service and the fleet
service are constructed with the identical task definition instance, and
hence with the same container images. -/
theorem C4_shared_task_definition (stack_name : String) (reverse_proxy : ReverseProxy)
    (uid0 : Nat) :
    let c := (Compute.init stack_name reverse_proxy uid0).1
    c.onebox_service.task_definition = c.fleet_service.task_definition
    ∧ c.onebox_service.task_definition.uid = c.fleet_service.task_definition.uid
    ∧ c.onebox_service.task_definition.containers.map ContainerDefinition.image
        = c.fleet_service.task_definition.containers.map ContainerDefinition.image :=
  ⟨rfl, rfl, rfl⟩

/-- C4 witness at a concrete instantiation. -/
theorem C4_shared_task_definition_witness :
    let c := (Compute.init "OneBoxDeploymentOnECS-Service-Sandbox"
      (ReverseProxy.init 0).1 3).1
    c.onebox_service.task_definition = c.fleet_service.task_definition
    ∧ c.onebox_service.task_definition.uid = c.fleet_service.task_definition.uid
    ∧ c.onebox_service.task_definition.containers.map ContainerDefinition.image
        = c.fleet_service.task_definition.containers.map ContainerDefinition.image :=
  C4_shared_task_definition "OneBoxDeploymentOnECS-Service-Sandbox"
    (ReverseProxy.init 0).1 3

/-- C5: the autoscaling parameters satisfy min less-or-equal desired
less-or-equal max for each service, with fleet min at least 10 and onebox
min at least 3; the desired count passed to each Fargate service and the
min and max bounds of its scaling policy are taken from these parameters,
in every instantiation of Compute. -/
theorem C5_autoscaling_bounds (stack_name : String) (reverse_proxy : ReverseProxy)
    (uid0 : Nat) :
    let op := ServiceConstants.ONEBOX_AUTOSCALING_PARAMETERS
    let fp := ServiceConstants.FLEET_AUTOSCALING_PARAMETERS
    let c := (Compute.init stack_name reverse_proxy uid0).1
    (op.min_capacity ≤ op.desired_capacity ∧ op.desired_capacity ≤ op.max_capacity
      ∧ 3 ≤ op.min_capacity)
    ∧ (fp.min_capacity ≤ fp.desired_capacity ∧ fp.desired_capacity ≤ fp.max_capacity
      ∧ 10 ≤ fp.min_capacity)
    ∧ c.onebox_service.desired_count = op.desired_capacity
    ∧ c.onebox_service.autoscaling = some
        { min_capacity := op.min_capacity
          max_capacity := op.max_capacity
          cpuScaling := some { constructId := "CpuScaling"
                               target_utilization_percent := op.target_cpu_utilization } }
    ∧ c.fleet_service.desired_count = fp.desired_capacity
    ∧ c.fleet_service.autoscaling = some
        { min_capacity := fp.min_capacity
          max_capacity := fp.max_capacity
          cpuScaling := some { constructId := "CpuScaling"
                               target_utilization_percent := fp.target_cpu_utilization } } :=
  ⟨⟨by decide, by decide, by decide⟩, ⟨by decide, by decide, by decide⟩,
    rfl, rfl, rfl, rfl⟩

/-- C5 witness at a concrete instantiation. -/
theorem C5_autoscaling_bounds_witness :
    let op := ServiceConstants.ONEBOX_AUTOSCALING_PARAMETERS
    let fp := ServiceConstants.FLEET_AUTOSCALING_PARAMETERS
    let c := (Compute.init "OneBoxDeploymentOnECS-Service-Prod"
      (ReverseProxy.init 0).1 3).1
    (op.min_capacity ≤ op.desired_capacity ∧ op.desired_capacity ≤ op.max_capacity
      ∧ 3 ≤ op.min_capacity)
    ∧ (fp.min_capacity ≤ fp.desired_capacity ∧ fp.desired_capacity ≤ fp.max_capacity
      ∧ 10 ≤ fp.min_capacity)
    ∧ c.onebox_service.desired_count = op.desired_capacity
    ∧ c.onebox_service.autoscaling = some
        { min_capacity := op.min_capacity
          max_capacity := op.max_capacity
          cpuScaling := some { constructId := "CpuScaling"
                               target_utilization_percent := op.target_cpu_utilization } }
    ∧ c.fleet_service.desired_count = fp.desired_capacity
    ∧ c.fleet_service.autoscaling = some
        { min_capacity := fp.min_capacity
          max_capacity := fp.max_capacity
          cpuScaling := some { constructId := "CpuScaling"
                               target_utilization_percent := fp.target_cpu_utilization } } :=
  C5_autoscaling_bounds "OneBoxDeploymentOnECS-Service-Prod" (ReverseProxy.init 0).1 3

/-- C6: the image-definition generation step binds IMAGE_NAME to the
application name and IMAGE_URI to the RuntimeContainerImageUrl output of
the service stack, whose value is the published runtime container image
URI; the document produced by its jq command holds exactly one entry with
that name and that image URI, written to the fixed relative path
ecs_deployment/imagedefinitions.json. -/
theorem C6_image_definition_artifact (stack_name account region : String) (uid0 : Nat) :
    let ss : ServiceStack := (ServiceStack.init stack_name account region uid0).1
    let step := ToolchainStack.createImageDefinitionGenerationStep ss
    step.env = [("IMAGE_NAME", ServiceConstants.APP_NAME)]
    ∧ step.env_from_cfn_outputs = [("IMAGE_URI", ss.runtime_container_image_url)]
    ∧ ss.runtime_container_image_url.outputId = "RuntimeContainerImageUrl"
    ∧ ss.runtime_container_image_url.value
        = ss.compute.runtime_container_image_asset.image_uri
    ∧ ToolchainStack.imageDefinitionsDocument ServiceConstants.APP_NAME
        ss.runtime_container_image_url.value
        = [{ name := ServiceConstants.APP_NAME
             imageUri := ss.compute.runtime_container_image_asset.image_uri }]
    ∧ ToolchainStack.imageDefinitionsRelativePath = "ecs_deployment/imagedefinitions.json" :=
  ⟨rfl, rfl, rfl, rfl, rfl, rfl⟩

/-- C6 witness at a concrete instantiation. -/
theorem C6_image_definition_artifact_witness :
    let ss : ServiceStack := (ServiceStack.init "OneBoxDeploymentOnECS-Service-Prod" "a" "r" 0).1
    let step := ToolchainStack.createImageDefinitionGenerationStep ss
    step.env = [("IMAGE_NAME", ServiceConstants.APP_NAME)]
    ∧ step.env_from_cfn_outputs = [("IMAGE_URI", ss.runtime_container_image_url)]
    ∧ ss.runtime_container_image_url.outputId = "RuntimeContainerImageUrl"
    ∧ ss.runtime_container_image_url.value
        = ss.compute.runtime_container_image_asset.image_uri
    ∧ ToolchainStack.imageDefinitionsDocument ServiceConstants.APP_NAME
        ss.runtime_container_image_url.value
        = [{ name := ServiceConstants.APP_NAME
             imageUri := ss.compute.runtime_container_image_asset.image_uri }]
    ∧ ToolchainStack.imageDefinitionsRelativePath = "ecs_deployment/imagedefinitions.json" :=
  C6_image_definition_artifact "OneBoxDeploymentOnECS-Service-Prod" "a" "r" 0

/-- C7: for each backend pool, ComputeDeploymentMonitoring derives a
TargetResponseTime metric from that pool with the trimmed-mean statistic
and one-minute period, creates an alarm on it with threshold 3, four
evaluation periods and three datapoints to alarm, and registers exactly
that alarm on the given service with rollback-on-alarm behavior; in every
ServiceStack the onebox pool is monitored against the onebox service and
the fleet pool against the fleet service. -/
theorem C7_deployment_monitoring (target_group : ApplicationTargetGroup)
    (target_service : FargateService)
    (stack_name account region : String) (uid0 : Nat) :
    let alarm := (ComputeDeploymentMonitoring.init target_group target_service).1
    let monitored := (ComputeDeploymentMonitoring.init target_group target_service).2
    alarm.metric = { targetGroupUid := target_group.uid
                     metric_name := "TargetResponseTime"
                     statistic := .trimmedMean 90 100
                     period := .minutes 1 }
    ∧ alarm.threshold = 3
    ∧ alarm.evaluation_periods = 4
    ∧ alarm.datapoints_to_alarm = 3
    ∧ monitored = { target_service with
        deploymentAlarms := target_service.deploymentAlarms
          ++ [(alarm.alarm_name, AlarmBehavior.ROLLBACK_ON_ALARM)] }
    ∧ (let ss := (ServiceStack.init stack_name account region uid0).1
       ss.monitored_onebox_service
          = (ComputeDeploymentMonitoring.init ss.reverse_proxy.onebox_target_group
              ss.compute.onebox_service).2
        ∧ ss.onebox_monitoring_alarm
            = (ComputeDeploymentMonitoring.init ss.reverse_proxy.onebox_target_group
                ss.compute.onebox_service).1
        ∧ ss.monitored_fleet_service
            = (ComputeDeploymentMonitoring.init ss.reverse_proxy.fleet_target_group
                ss.compute.fleet_service).2
        ∧ ss.fleet_monitoring_alarm
            = (ComputeDeploymentMonitoring.init ss.reverse_proxy.fleet_target_group
                ss.compute.fleet_service).1) :=
  ⟨rfl, rfl, rfl, rfl, rfl, rfl, rfl, rfl, rfl⟩

/-- C7 witness at a concrete instantiation. -/
theorem C7_deployment_monitoring_witness :
    let tg := (ReverseProxy.init 0).1.onebox_target_group
    let svc := (Compute.init "S-Prod" (ReverseProxy.init 0).1 3).1.onebox_service
    let alarm := (ComputeDeploymentMonitoring.init tg svc).1
    let monitored := (ComputeDeploymentMonitoring.init tg svc).2
    alarm.metric = { targetGroupUid := tg.uid
                     metric_name := "TargetResponseTime"
                     statistic := .trimmedMean 90 100
                     period := .minutes 1 }
    ∧ alarm.threshold = 3
    ∧ alarm.evaluation_periods = 4
    ∧ alarm.datapoints_to_alarm = 3
    ∧ monitored = { svc with
        deploymentAlarms := svc.deploymentAlarms
          ++ [(alarm.alarm_name, AlarmBehavior.ROLLBACK_ON_ALARM)] }
    ∧ (let ss := (ServiceStack.init "S-Prod" "a" "r" 0).1
       ss.monitored_onebox_service
          = (ComputeDeploymentMonitoring.init ss.reverse_proxy.onebox_target_group
              ss.compute.onebox_service).2
        ∧ ss.onebox_monitoring_alarm
            = (ComputeDeploymentMonitoring.init ss.reverse_proxy.onebox_target_group
                ss.compute.onebox_service).1
        ∧ ss.monitored_fleet_service
            = (ComputeDeploymentMonitoring.init ss.reverse_proxy.fleet_target_group
                ss.compute.fleet_service).2
        ∧ ss.fleet_monitoring_alarm
            = (ComputeDeploymentMonitoring.init ss.reverse_proxy.fleet_target_group
                ss.compute.fleet_service).1) :=
  C7_deployment_monitoring (ReverseProxy.init 0).1.onebox_target_group
    (Compute.init "S-Prod" (ReverseProxy.init 0).1 3).1.onebox_service
    "S-Prod" "a" "r" 0

/-- C8: when the primary output of the image-definition generation step is
absent, the wiring of the production deployment steps raises a ValueError
immediately (modelled as Except.error with the exact message) instead of
producing a pipeline without the artifact. -/
theorem C8_missing_primary_output_aborts (prod_service_stack : ServiceStack)
    (step : ShellStep) (h : step.primary_output = none) :
    ToolchainStack.wireProdDeploymentSteps prod_service_stack step
      = Except.error
          "image_definitions_generation_step.primary_output should never be None" := by
  unfold ToolchainStack.wireProdDeploymentSteps
  rw [h]

/-- C8 witness: a generation step configured without a primary output
directory aborts the wiring with the ValueError message. -/
theorem C8_missing_primary_output_aborts_witness :
    ToolchainStack.wireProdDeploymentSteps
        (ServiceStack.init "OneBoxDeploymentOnECS-Service-Prod" "a" "r" 0).1
        { stepId := "GenerateImageDefinitionJson"
          commands := []
          env := []
          env_from_cfn_outputs := []
          primary_output_directory := none }
      = Except.error
          "image_definitions_generation_step.primary_output should never be None" :=
  C8_missing_primary_output_aborts _ _ rfl

/-- C9: every EcsDeployStep adds, at construction, a step dependency on the
producer of its input file set; hence every deployment step that
_create_ecs_deployment_step builds from an artifact has the producer of
that artifact among its upstream dependencies, before any explicit edge is
added. -/
theorem C9_deploy_step_depends_on_producer (id_ : String) (input_ : FileSet)
    (ecs_service : EcsServiceImport) :
    input_.producerId ∈ (EcsDeployStep.init id_ input_ ecs_service).dependencies
    ∧ ∀ (artifact : FileSet)
        (cluster_name service_name deployment_stage account region : String),
        artifact.producerId ∈ (ToolchainStack.createEcsDeploymentStep artifact
          cluster_name service_name deployment_stage account region).dependencies := by
  constructor
  · show input_.producerId ∈ [input_.producerId]
    simp
  · intro artifact cluster_name service_name deployment_stage account region
    show artifact.producerId ∈ [artifact.producerId]
    simp

/-- C9 witness at concrete inputs. -/
theorem C9_deploy_step_depends_on_producer_witness :
    let input : FileSet := { producerId := "GenerateImageDefinitionJson" }
    let svc := ToolchainStack.importEcsService "r" "a" "C" "S"
    input.producerId ∈ (EcsDeployStep.init "EcsDeployOnebox" input svc).dependencies
    ∧ ∀ (artifact : FileSet)
        (cluster_name service_name deployment_stage account region : String),
        artifact.producerId ∈ (ToolchainStack.createEcsDeploymentStep artifact
          cluster_name service_name deployment_stage account region).dependencies :=
  C9_deploy_step_depends_on_producer "EcsDeployOnebox"
    { producerId := "GenerateImageDefinitionJson" }
    (ToolchainStack.importEcsService "r" "a" "C" "S")

/-- C10: the cluster name is the application name joined by a hyphen to the
last hyphen-separated segment of the enclosing stack name, the service
names are the application name joined to Onebox and Fleet independent of
environment, and the toolchain reconstructs each deployment target ARN
from exactly these names. -/
theorem C10_resource_naming (stack_name : String) (uid0 : Nat) :
    Compute.generateEcsClusterName stack_name
      = ServiceConstants.APP_NAME ++ "-" ++ lastDashSegment stack_name
    ∧ Compute.generateEcsServiceName DeploymentStage.ONEBOX
        = ServiceConstants.APP_NAME ++ "-Onebox"
    ∧ Compute.generateEcsServiceName DeploymentStage.FLEET
        = ServiceConstants.APP_NAME ++ "-Fleet"
    ∧ (∀ reverse_proxy : ReverseProxy,
        (Compute.init stack_name reverse_proxy uid0).1.ecs_cluster_name
          = Compute.generateEcsClusterName stack_name
        ∧ (Compute.init stack_name reverse_proxy uid0).1.onebox_service_name
            = ServiceConstants.APP_NAME ++ "-Onebox"
        ∧ (Compute.init stack_name reverse_proxy uid0).1.fleet_service_name
            = ServiceConstants.APP_NAME ++ "-Fleet")
    ∧ (∃ ps : ToolchainStack.ProdStageDeployment,
        ToolchainStack.addProdStageToPipeline uid0 = Except.ok ps
        ∧ ps.onebox_deployment_step.ecs_service.service_arn
            = ToolchainStack.arnFormatSlashResourceName "aws" "ecs"
                PRODUCTION_ENVIRONMENT.region PRODUCTION_ENVIRONMENT.account "service"
                (Compute.generateEcsClusterName ToolchainStack.prodServiceStackName
                  ++ "/" ++ Compute.generateEcsServiceName DeploymentStage.ONEBOX)
        ∧ ps.fleet_deployment_step.ecs_service.service_arn
            = ToolchainStack.arnFormatSlashResourceName "aws" "ecs"
                PRODUCTION_ENVIRONMENT.region PRODUCTION_ENVIRONMENT.account "service"
                (Compute.generateEcsClusterName ToolchainStack.prodServiceStackName
                  ++ "/" ++ Compute.generateEcsServiceName DeploymentStage.FLEET)) := by
  refine ⟨rfl, rfl, rfl, fun reverse_proxy => ⟨rfl, rfl, rfl⟩, ⟨_, rfl, ?_, ?_⟩⟩ <;> rfl

/-- C10 witness at a concrete instantiation. -/
theorem C10_resource_naming_witness :
    Compute.generateEcsClusterName "OneBoxDeploymentOnECS-Service-Prod"
      = ServiceConstants.APP_NAME ++ "-"
          ++ lastDashSegment "OneBoxDeploymentOnECS-Service-Prod"
    ∧ Compute.generateEcsServiceName DeploymentStage.ONEBOX
        = ServiceConstants.APP_NAME ++ "-Onebox"
    ∧ Compute.generateEcsServiceName DeploymentStage.FLEET
        = ServiceConstants.APP_NAME ++ "-Fleet"
    ∧ (∀ reverse_proxy : ReverseProxy,
        (Compute.init "OneBoxDeploymentOnECS-Service-Prod" reverse_proxy 0).1.ecs_cluster_name
          = Compute.generateEcsClusterName "OneBoxDeploymentOnECS-Service-Prod"
        ∧ (Compute.init "OneBoxDeploymentOnECS-Service-Prod" reverse_proxy 0).1.onebox_service_name
            = ServiceConstants.APP_NAME ++ "-Onebox"
        ∧ (Compute.init "OneBoxDeploymentOnECS-Service-Prod" reverse_proxy 0).1.fleet_service_name
            = ServiceConstants.APP_NAME ++ "-Fleet")
    ∧ (∃ ps : ToolchainStack.ProdStageDeployment,
        ToolchainStack.addProdStageToPipeline 0 = Except.ok ps
        ∧ ps.onebox_deployment_step.ecs_service.service_arn
            = ToolchainStack.arnFormatSlashResourceName "aws" "ecs"
                PRODUCTION_ENVIRONMENT.region PRODUCTION_ENVIRONMENT.account "service"
                (Compute.generateEcsClusterName ToolchainStack.prodServiceStackName
                  ++ "/" ++ Compute.generateEcsServiceName DeploymentStage.ONEBOX)
        ∧ ps.fleet_deployment_step.ecs_service.service_arn
            = ToolchainStack.arnFormatSlashResourceName "aws" "ecs"
                PRODUCTION_ENVIRONMENT.region PRODUCTION_ENVIRONMENT.account "service"
                (Compute.generateEcsClusterName ToolchainStack.prodServiceStackName
                  ++ "/" ++ Compute.generateEcsServiceName DeploymentStage.FLEET)) :=
  C10_resource_naming "OneBoxDeploymentOnECS-Service-Prod" 0

end OneBoxECS
